import Mathlib

/-!
Verification development for the stream-archiver reconciliation loop
(src/app/main.py and src/app/plugins/kick.py), as a shallow embedding:
the mutable `active_downloads` dict becomes an association list passed
explicitly, the asyncio subprocess handle becomes an opaque record that
carries the outcome its `terminate()` call would have, and platform API
calls become explicit world records describing what each outbound query
returns (or which exception it raises).
-/

set_option autoImplicit false
set_option maxRecDepth 8192

/-- Outcome of calling `terminate()` on a recording process.
`_stop_download` catches exactly `ProcessLookupError` and `OSError`;
any other exception would propagate out of `_stop_download`. -/
inductive TermOutcome
  | ok
  | processLookupError
  | osError
  | otherError
deriving DecidableEq, Repr

/-- Embeds the asyncio subprocess object stored in `active_downloads`:
an opaque process id plus the behaviour of its `terminate()` method. -/
structure Handle where
  pid : Nat
  terminateOutcome : TermOutcome
deriving DecidableEq, Repr

/-- Channel keys are the strings `f"{platform_name}:{channel}"`. -/
abbrev ChannelKey := String

/-- The `self.active_downloads` dict, as an association list. -/
abbrev Downloads := List (ChannelKey × Handle)

/-- Dict lookup `active_downloads[channel_key]`, first matching entry. -/
def lookupKey : Downloads → ChannelKey → Option Handle
  | [], _ => none
  | (k, h) :: rest, key => if k == key then some h else lookupKey rest key

/-- Dict membership test `channel_key in self.active_downloads`. -/
def containsKey (d : Downloads) (key : ChannelKey) : Bool :=
  (lookupKey d key).isSome

/-- Dict assignment `self.active_downloads[channel_key] = handle`:
replaces an existing entry for the key, otherwise appends. -/
def insertKey : Downloads → ChannelKey → Handle → Downloads
  | [], key, h => [(key, h)]
  | (k, v) :: rest, key, h =>
    if k == key then (key, h) :: rest else (k, v) :: insertKey rest key h

/-- Dict deletion `del self.active_downloads[channel_key]`. -/
def eraseKey (d : Downloads) (key : ChannelKey) : Downloads :=
  d.filter (fun p => !(p.1 == key))

/-- An exception that escapes one of the download helpers: the only
uncaught raise site is `terminate()` throwing something other than
`ProcessLookupError` or `OSError`. -/
inductive PyError
  | terminateError
deriving DecidableEq, Repr

/-- Failure of `asyncio.create_subprocess_exec` (binary missing, bad
arguments, OS resource exhaustion); `_start_download` catches it. -/
inductive SpawnError
  | spawnFailed
deriving DecidableEq, Repr

/-- Counts of calls made during one channel's slice of a tick:
`startCalls` counts invocations of `asyncio.create_subprocess_exec`
inside `_start_download`, `stopCalls` counts invocations of
`_stop_download`. -/
structure Events where
  startCalls : Nat
  stopCalls : Nat
deriving DecidableEq, Repr

/-- Embeds `StreamArchiver._stop_download`: if the key is present, call
`terminate()` on its handle, treating `ProcessLookupError` and `OSError`
as success, then delete the entry; if the key is absent, do nothing.
A `terminate()` exception outside the caught pair propagates before the
`del` runs, so the map is unchanged in the error case. -/
def stopDownload (d : Downloads) (key : ChannelKey) : Except PyError Downloads :=
  match lookupKey d key with
  | some h =>
    match h.terminateOutcome with
    | .otherError => .error .terminateError
    | _ => .ok (eraseKey d key)
  | none => .ok d

/-- Embeds the stateful tail of `StreamArchiver._start_download`
(filename assembly is pure and modelled separately): attempt the spawn,
record the handle under the key on success; on spawn failure the except
clause calls `_stop_download(channel_key)`. The spawn outcome is the
`spawn` argument. -/
def startDownload (d : Downloads) (key : ChannelKey)
    (spawn : Except SpawnError Handle) : Except PyError Downloads × Events :=
  match spawn with
  | .ok h => (.ok (insertKey d key h), ⟨1, 0⟩)
  | .error _ => (stopDownload d key, ⟨1, 1⟩)

/-- Embeds one channel's slice of `StreamArchiver.check_stream_status`:
`probe` is the pair returned by `platform.is_stream_live(channel)`
(that coroutine never raises to this level: both implementations catch
all exceptions internally), and the outer try/except catches anything
the two branches raise. In every raising path the map has not yet been
mutated, so the caught-exception result keeps the incoming map. -/
def channelTick {α : Type} (d : Downloads) (key : ChannelKey)
    (probe : Bool × Option α) (spawn : Except SpawnError Handle) :
    Downloads × Events :=
  if probe.1 && !(containsKey d key) then
    match startDownload d key spawn with
    | (.ok d2, ev) => (d2, ev)
    | (.error _, ev) => (d, ev)
  else if !probe.1 && containsKey d key then
    match stopDownload d key with
    | .ok d2 => (d2, ⟨0, 1⟩)
    | .error _ => (d, ⟨0, 1⟩)
  else
    (d, ⟨0, 0⟩)

/-- A Twitch user object as returned by `get_users`. -/
structure TwitchUser where
  id : String
deriving DecidableEq, Repr

/-- A Twitch stream object as returned by `get_streams`; `title` is
`some t` when the object has a `title` attribute with value `t`. -/
structure TwitchStream where
  title : Option String
deriving DecidableEq, Repr

/-- The behaviour of the two Twitch API calls `is_stream_live` makes for
one channel: each either raises (error message) or returns its value
(`none` meaning no user / no live stream found). -/
structure TwitchWorld where
  getUsers : Except String (Option TwitchUser)
  getStreams : Except String (Option TwitchStream)
deriving Repr

/-- Embeds `TwitchPlatform.is_stream_live`: resolve the user, then query
streams, returning the pair `(bool(stream), stream)`; a missing user is
logged and reported as `(False, None)`, and the enclosing try/except
turns any raised exception into `(False, None)` as well. -/
def twitch_is_stream_live (w : TwitchWorld) : Bool × Option TwitchStream :=
  match w.getUsers with
  | .error _ => (false, none)
  | .ok none => (false, none)
  | .ok (some _) =>
    match w.getStreams with
    | .error _ => (false, none)
    | .ok s => (s.isSome, s)

/-- True when one of the probe's API calls raises an exception, as
opposed to returning a not-found or not-live answer. -/
def twitchProbeFails (w : TwitchWorld) : Bool :=
  match w.getUsers with
  | .error _ => true
  | .ok none => false
  | .ok (some _) =>
    match w.getStreams with
    | .error _ => true
    | .ok _ => false

/-- The `data` object of the Kick livestream endpoint's JSON response. -/
structure KickApiData where
  playback_url : Option String
  session_title : Option String
deriving DecidableEq, Repr

/-- The behaviour of the single HTTP request `get_kick_stream_info`
makes: raise (error message), or return a JSON body whose `data` field
is absent/falsy (`none`) or present. -/
structure KickWorld where
  response : Except String (Option KickApiData)
deriving Repr

/-- The dict built by `get_kick_stream_info`; `none` stands for the
empty dict it returns on error or missing data. -/
structure KickStreamInfo where
  is_live : Bool
  channel : String
  session_title : Option String
  playback_url : Option String
deriving DecidableEq, Repr

/-- Embeds `get_kick_stream_info` from src/app/plugins/kick.py: on any
exception or missing `data` field return the empty dict; otherwise
report `is_live = bool(playback_url)` and, when live, the session title
(defaulting to `Kick Stream - ` followed by the channel) and url. -/
def get_kick_stream_info (w : KickWorld) (channel : String) : Option KickStreamInfo :=
  match w.response with
  | .error _ => none
  | .ok none => none
  | .ok (some data) =>
    match data.playback_url with
    | some url =>
      some { is_live := true, channel := channel,
             session_title := some (data.session_title.getD ("Kick Stream - " ++ channel)),
             playback_url := some url }
    | none =>
      some { is_live := false, channel := channel,
             session_title := none, playback_url := none }

/-- Embeds `KickPlatform.is_stream_live`: call the helper and return
`(True, info)` when the dict is truthy with a truthy `is_live` field,
else `(False, None)`. -/
def kick_is_stream_live (w : KickWorld) (channel : String) :
    Bool × Option KickStreamInfo :=
  match get_kick_stream_info w channel with
  | some info => if info.is_live then (true, some info) else (false, none)
  | none => (false, none)

/-- True when the Kick probe's HTTP request raises an exception. -/
def kickProbeFails (w : KickWorld) : Bool :=
  match w.response with
  | .error _ => true
  | .ok _ => false

/-- Python `str.replace` for a single-character pattern, by code point:
replaces every occurrence of `c` with `r`. -/
def pyReplaceChar (c r : Char) (s : String) : String :=
  String.mk (s.data.map (fun a => if a = c then r else a))

/-- Python slicing `s[:n]` on a string, by code point. -/
def pyTruncate (n : Nat) (s : String) : String :=
  String.mk (s.data.take n)

/-- The replace/replace/truncate chain applied to a truthy title in
`_start_download`: forward slash and backslash each become an
underscore, then the result is cut to 200 characters. -/
def sanitizeTitle (title : String) : String :=
  pyTruncate 200 (pyReplaceChar '\\' '_' (pyReplaceChar '/' '_' title))

/-- Embeds the `safe_title` conditional of `_start_download`: sanitize a
truthy (non-empty) title, substitute the literal text otherwise. -/
def safeTitle (title : String) : String :=
  if title == "" then "Unknown Title" else sanitizeTitle title

/-- Embeds the `filename` f-string of `_start_download`: timestamp
(already rendered by strftime as year-month-day hour:minute), platform
shortname, channel and safe title separated by single spaces, with the
mp4 extension. -/
def downloadFilename (timestamp shortname channel title : String) : String :=
  timestamp ++ " " ++ shortname ++ " " ++ channel ++ " " ++ safeTitle title ++ ".mp4"

/-- Modelled from the spec: the sanitized title of section 4.2's
filename construction rule — path separators become underscores, the
result is truncated to 200 characters, and an unavailable title is
rendered as the literal text. -/
def specSanitizedTitle : Option String → String
  | none => "Unknown Title"
  | some t => pyTruncate 200 (pyReplaceChar '\\' '_' (pyReplaceChar '/' '_' t))

/-- Modelled from the spec: the full filename format of section 4.2. -/
def specFilename (timestamp shortname channel : String) (title : Option String) : String :=
  timestamp ++ " " ++ shortname ++ " " ++ channel ++ " " ++ specSanitizedTitle title ++ ".mp4"

/-- The environment variables `StreamArchiver.__init__` reads; `none`
means unset, `some s` means set to `s`. -/
structure Env where
  twitch_client_id : Option String
  twitch_client_secret : Option String
  twitch_oauth_token : Option String
  twitch_channels : Option String
  kick_channels : Option String
deriving DecidableEq, Repr

/-- Python truthiness of an `os.getenv` result: set and non-empty. -/
def truthy : Option String → Bool
  | none => false
  | some s => !(s == "")

/-- Python `s.split(",")`: comma-separated pieces, `[""] ` for the empty
string, with empty pieces kept. -/
def splitOnComma (s : String) : List String :=
  (s.data.foldr
    (fun c acc =>
      match acc with
      | cur :: rest => if c = ',' then [] :: cur :: rest else (c :: cur) :: rest
      | [] => [[c]])
    [[]]).map String.mk

/-- Python whitespace as stripped by `str.strip()`. -/
def pyIsSpace (c : Char) : Bool :=
  c = ' ' || c = '\t' || c = '\n' || c = '\r' || c = '\x0b' || c = '\x0c'

/-- Python `str.strip()` with no argument. -/
def pyStrip (s : String) : String :=
  String.mk (((s.data.dropWhile pyIsSpace).reverse.dropWhile pyIsSpace).reverse)

/-- The expression `os.getenv(NAME, "").split(",") if os.getenv(NAME)
else []` used for both channel lists. -/
def envChannels (v : Option String) : List String :=
  match v with
  | some s => if s == "" then [] else splitOnComma s
  | none => []

/-- The comprehension `[ch.strip() for ch in channels if ch.strip()]`
applied when a platform is registered. -/
def cleanChannels (l : List String) : List String :=
  (l.map pyStrip).filter (fun s => !(s == ""))

/-- The `self.platforms` dict: for each of the two platforms, `some
channels` when the platform was registered. -/
structure Platforms where
  twitch : Option (List String)
  kick : Option (List String)
deriving DecidableEq, Repr

/-- Embeds `StreamArchiver._initialize_platforms`: Twitch is registered
when all three credentials are truthy and the raw channel list is
non-empty; Kick is registered when its raw channel list is non-empty.
Each registered platform stores the stripped, non-empty channels. -/
def initializePlatforms (env : Env) : Platforms :=
  let twitchChans := envChannels env.twitch_channels
  let kickChans := envChannels env.kick_channels
  { twitch :=
      if truthy env.twitch_client_id && truthy env.twitch_client_secret &&
          truthy env.twitch_oauth_token && !twitchChans.isEmpty then
        some (cleanChannels twitchChans)
      else none
    kick :=
      if !kickChans.isEmpty then some (cleanChannels kickChans) else none }

/-- The two `ValueError` raise sites of `_validate_config`. -/
inductive ConfigError
  | noPlatforms
  | badOauthToken
deriving DecidableEq, Repr

/-- Python `s.startswith(p)`. -/
def pyStartsWith (s p : String) : Bool :=
  s.data.take p.data.length == p.data

/-- Embeds `StreamArchiver._validate_config`: raise when no platform is
registered; raise when Twitch is registered and its oauth token does not
start with the oauth scheme tag; otherwise accept. -/
def validateConfig (env : Env) (p : Platforms) : Except ConfigError Unit :=
  if p.twitch.isNone && p.kick.isNone then
    .error .noPlatforms
  else if p.twitch.isSome && !(pyStartsWith (env.twitch_oauth_token.getD "") "oauth:") then
    .error .badOauthToken
  else
    .ok ()

/-- Embeds the configuration part of `StreamArchiver.__init__`: build
the platforms dict, then validate it; construction yields the platforms
on success and the `ValueError` otherwise. -/
def constructArchiver (env : Env) : Except ConfigError Platforms :=
  let p := initializePlatforms env
  match validateConfig env p with
  | .ok _ => .ok p
  | .error e => .error e

/-- Total number of channels the constructed archiver would monitor. -/
def monitoredChannelCount (p : Platforms) : Nat :=
  (p.twitch.getD []).length + (p.kick.getD []).length

/-- Python `int()` on the digit strings used for `CHECK_INTERVAL`
(signs, surrounding whitespace and underscores are not modelled; the
raising cases map to `none`). -/
def pyParseNat (s : String) : Option Nat :=
  if !s.data.isEmpty && s.data.all Char.isDigit then
    some (s.data.foldl (fun n c => 10 * n + (c.toNat - 48)) 0)
  else none

/-- Embeds `int(os.getenv("CHECK_INTERVAL", "30"))`. -/
def checkIntervalEnv (v : Option String) : Option Nat :=
  pyParseNat (v.getD "30")

/-- The per-iteration backoff of `run` after a caught exception. -/
def errorBackoff : Nat := 5

/-- The single thing an iteration of the `while True` loop in `run` can
do: sleep for some duration and continue. Having no other constructor
records that the loop body contains no break or return. -/
inductive LoopAction
  | sleepThenContinue (duration : Nat)
deriving DecidableEq, Repr

/-- Embeds the body of the `while True` loop of `StreamArchiver.run`:
await the tick; on success sleep for the check interval, and on a caught
exception log it and sleep for the fixed backoff. Either way the loop
continues. -/
def runLoopBody (checkInterval : Nat) (tick : Except String Unit) : LoopAction :=
  match tick with
  | .ok _ => .sleepThenContinue checkInterval
  | .error _ => .sleepThenContinue errorBackoff

/-- The sleeps the loop performs across a finite schedule of tick
outcomes: one per iteration, never exiting early. -/
def loopSleeps (checkInterval : Nat) : List (Except String Unit) → List Nat
  | [] => []
  | t :: rest =>
    match runLoopBody checkInterval t with
    | .sleepThenContinue d => d :: loopSleeps checkInterval rest

/-- A 210-character title containing both path separators, used to
check the spec's filename test vector. -/
def exampleTitle210 : String := "A/B\\Test" ++ String.mk (List.replicate 202 'x')

theorem lookupKey_none (d : Downloads) (key : ChannelKey)
    (h : containsKey d key = false) : lookupKey d key = none := by
  unfold containsKey at h
  cases hl : lookupKey d key with
  | none => rfl
  | some v => rw [hl] at h; simp at h

theorem containsKey_true_of_lookup {d : Downloads} {key : ChannelKey} {h : Handle}
    (hl : lookupKey d key = some h) : containsKey d key = true := by
  simp [containsKey, hl]

theorem lookupKey_insertKey_self (d : Downloads) (key : ChannelKey) (h : Handle) :
    lookupKey (insertKey d key h) key = some h := by
  induction d with
  | nil => simp [insertKey, lookupKey]
  | cons p rest ih =>
    obtain ⟨k, v⟩ := p
    by_cases hk : (k == key) = true
    · simp [insertKey, hk, lookupKey]
    · simp [insertKey, hk, lookupKey, ih]

theorem lookupKey_eraseKey_self (d : Downloads) (key : ChannelKey) :
    lookupKey (eraseKey d key) key = none := by
  induction d with
  | nil => rfl
  | cons p rest ih =>
    obtain ⟨k, v⟩ := p
    by_cases hk : (k == key) = true
    · simpa [eraseKey, List.filter, hk] using ih
    · simpa [eraseKey, List.filter, hk, lookupKey] using ih

theorem stopDownload_absent (d : Downloads) (key : ChannelKey)
    (hl : lookupKey d key = none) : stopDownload d key = .ok d := by
  simp [stopDownload, hl]

theorem stopDownload_present (d : Downloads) (key : ChannelKey) (h : Handle)
    (hl : lookupKey d key = some h) (ho : h.terminateOutcome ≠ TermOutcome.otherError) :
    stopDownload d key = .ok (eraseKey d key) := by
  obtain ⟨pid, oc⟩ := h
  cases oc <;> simp_all [stopDownload]

theorem channelTick_noop {α : Type} (d : Downloads) (key : ChannelKey)
    (sd : Option α) (spawn : Except SpawnError Handle) (live : Bool)
    (h : containsKey d key = live) :
    channelTick d key (live, sd) spawn = (d, ⟨0, 0⟩) := by
  cases live with
  | false => simp [channelTick, h]
  | true => simp [channelTick, h]

theorem channelTick_stop {α : Type} (d : Downloads) (key : ChannelKey)
    (sd : Option α) (spawn : Except SpawnError Handle) (h : Handle)
    (hl : lookupKey d key = some h) (ho : h.terminateOutcome ≠ TermOutcome.otherError) :
    channelTick d key (false, sd) spawn = (eraseKey d key, ⟨0, 1⟩) := by
  have hc := containsKey_true_of_lookup hl
  have hs := stopDownload_present d key h hl ho
  simp [channelTick, hc, hs]

theorem channelTick_start_ok {α : Type} (d : Downloads) (key : ChannelKey)
    (sd : Option α) (h : Handle) (hc : containsKey d key = false) :
    channelTick d key (true, sd) (.ok h) = (insertKey d key h, ⟨1, 0⟩) := by
  simp [channelTick, hc, startDownload]

theorem channelTick_start_err {α : Type} (d : Downloads) (key : ChannelKey)
    (sd : Option α) (e : SpawnError) (hc : containsKey d key = false) :
    channelTick d key (true, sd) (.error e) = (d, ⟨1, 1⟩) := by
  have hl := lookupKey_none d key hc
  simp [channelTick, hc, startDownload, stopDownload_absent d key hl]

theorem twitch_fail_not_live (w : TwitchWorld) (hw : twitchProbeFails w = true) :
    twitch_is_stream_live w = (false, none) := by
  unfold twitchProbeFails at hw
  unfold twitch_is_stream_live
  cases hu : w.getUsers with
  | error e => rfl
  | ok u =>
    rw [hu] at hw
    cases u with
    | none => simp at hw
    | some user =>
      cases hs : w.getStreams with
      | error e => rfl
      | ok s => rw [hs] at hw; simp at hw

theorem kick_fail_not_live (w : KickWorld) (channel : String)
    (hk : kickProbeFails w = true) :
    kick_is_stream_live w channel = (false, none) := by
  unfold kickProbeFails at hk
  unfold kick_is_stream_live get_kick_stream_info
  cases hr : w.response with
  | error e => rfl
  | ok r => rw [hr] at hk; simp at hk

/-- C2: a tick that observes a live probe for a channel whose key is
already in the active-downloads map takes neither branch of
`check_stream_status`: no call to `_start_download` (hence no second
subprocess for the key) and no change to the map. -/
theorem recordingChannelNeverRestarted {α : Type} (d : Downloads) (key : ChannelKey)
    (sd : Option α) (spawn : Except SpawnError Handle)
    (hc : containsKey d key = true) :
    channelTick d key (true, sd) spawn = (d, ⟨0, 0⟩) :=
  channelTick_noop d key sd spawn true hc

theorem recordingChannelNeverRestarted_witness :
    containsKey [("twitch:foo", (⟨7, TermOutcome.ok⟩ : Handle))] "twitch:foo" = true ∧
    channelTick (α := TwitchStream) [("twitch:foo", ⟨7, TermOutcome.ok⟩)] "twitch:foo"
        (true, none) (.ok ⟨8, TermOutcome.ok⟩)
      = ([("twitch:foo", ⟨7, TermOutcome.ok⟩)], ⟨0, 0⟩) :=
  ⟨by decide,
   recordingChannelNeverRestarted _ "twitch:foo" none (.ok ⟨8, TermOutcome.ok⟩) (by decide)⟩

/-- C9: the two remaining probe-outcome and state combinations, a
not-live success while the key is absent and a live success while the
key is present, are no-ops: the map is unchanged and neither
`_start_download` nor `_stop_download` is called. The two combinations
are exactly those where the membership bit equals the liveness bit. -/
theorem matchingStateNoOp {α : Type} (d : Downloads) (key : ChannelKey)
    (sd : Option α) (spawn : Except SpawnError Handle) (live : Bool)
    (h : containsKey d key = live) :
    channelTick d key (live, sd) spawn = (d, ⟨0, 0⟩) :=
  channelTick_noop d key sd spawn live h

theorem matchingStateNoOp_witness :
    (containsKey ([] : Downloads) "kick:bar" = false ∧
      channelTick (α := KickStreamInfo) [] "kick:bar" (false, none) (.ok ⟨1, TermOutcome.ok⟩)
        = ([], ⟨0, 0⟩)) ∧
    (containsKey [("kick:bar", (⟨2, TermOutcome.ok⟩ : Handle))] "kick:bar" = true ∧
      channelTick (α := KickStreamInfo) [("kick:bar", ⟨2, TermOutcome.ok⟩)] "kick:bar"
          (true, none) (.ok ⟨3, TermOutcome.ok⟩)
        = ([("kick:bar", ⟨2, TermOutcome.ok⟩)], ⟨0, 0⟩)) :=
  ⟨⟨by decide, matchingStateNoOp [] "kick:bar" none (.ok ⟨1, TermOutcome.ok⟩) false (by decide)⟩,
   ⟨by decide,
    matchingStateNoOp [("kick:bar", ⟨2, TermOutcome.ok⟩)] "kick:bar" none
      (.ok ⟨3, TermOutcome.ok⟩) true (by decide)⟩⟩

/-- C3: a successful not-live probe while the key is in the map calls
`_stop_download` exactly once and removes the entry, provided
`terminate()` raises nothing outside the caught pair; in particular a
`ProcessLookupError` from an already-gone process is treated as success
and the transition to Idle still happens. -/
theorem offlineProbeStopsRecordingOnce {α : Type} (d : Downloads) (key : ChannelKey)
    (sd : Option α) (spawn : Except SpawnError Handle) (h : Handle)
    (hl : lookupKey d key = some h) (ho : h.terminateOutcome ≠ TermOutcome.otherError) :
    channelTick d key (false, sd) spawn = (eraseKey d key, ⟨0, 1⟩) ∧
    containsKey (eraseKey d key) key = false :=
  ⟨channelTick_stop d key sd spawn h hl ho,
   by simp [containsKey, lookupKey_eraseKey_self]⟩

theorem offlineProbeStopsRecordingOnce_witness :
    lookupKey [("twitch:foo", (⟨7, TermOutcome.processLookupError⟩ : Handle))] "twitch:foo"
      = some (⟨7, TermOutcome.processLookupError⟩ : Handle) ∧
    (⟨7, TermOutcome.processLookupError⟩ : Handle).terminateOutcome ≠ TermOutcome.otherError ∧
    (channelTick [("twitch:foo", (⟨7, TermOutcome.processLookupError⟩ : Handle))] "twitch:foo"
        ((false, none) : Bool × Option TwitchStream) (.ok ⟨9, TermOutcome.ok⟩)
      = (eraseKey [("twitch:foo", ⟨7, TermOutcome.processLookupError⟩)] "twitch:foo", ⟨0, 1⟩) ∧
     containsKey (eraseKey [("twitch:foo", ⟨7, TermOutcome.processLookupError⟩)] "twitch:foo")
        "twitch:foo" = false) :=
  ⟨by decide, by decide,
   offlineProbeStopsRecordingOnce _ _ none (.ok ⟨9, TermOutcome.ok⟩)
     ⟨7, TermOutcome.processLookupError⟩ (by decide) (by decide)⟩

/-- C4: with the key absent and a live probe, a spawn failure leaves
the map exactly as it was (the dict assignment never ran, and the
cleanup call to `_stop_download` finds nothing), so a later tick with
a live probe and the same absent key attempts the spawn again and, on
success, records the handle. -/
theorem startFailureLeavesIdle {α : Type} (d : Downloads) (key : ChannelKey)
    (sd sd2 : Option α) (e : SpawnError) (h2 : Handle)
    (hc : containsKey d key = false) :
    channelTick d key (true, sd) (.error e) = (d, ⟨1, 1⟩) ∧
    channelTick d key (true, sd2) (.ok h2) = (insertKey d key h2, ⟨1, 0⟩) ∧
    containsKey (insertKey d key h2) key = true := by
  refine ⟨channelTick_start_err d key sd e hc, channelTick_start_ok d key sd2 h2 hc, ?_⟩
  simp [containsKey, lookupKey_insertKey_self]

theorem startFailureLeavesIdle_witness :
    containsKey ([] : Downloads) "twitch:foo" = false ∧
    (channelTick ([] : Downloads) "twitch:foo" ((true, none) : Bool × Option TwitchStream)
        (.error SpawnError.spawnFailed) = ([], ⟨1, 1⟩) ∧
     channelTick ([] : Downloads) "twitch:foo" ((true, none) : Bool × Option TwitchStream)
        (.ok ⟨4, TermOutcome.ok⟩) = (insertKey [] "twitch:foo" ⟨4, TermOutcome.ok⟩, ⟨1, 0⟩) ∧
     containsKey (insertKey [] "twitch:foo" (⟨4, TermOutcome.ok⟩ : Handle)) "twitch:foo" = true) :=
  ⟨by decide,
   startFailureLeavesIdle [] "twitch:foo" none none SpawnError.spawnFailed
     ⟨4, TermOutcome.ok⟩ (by decide)⟩

/-- C10: `_stop_download` on a key with no entry does nothing: the
membership test fails, no exception is raised and the map is returned
unchanged; consequently stopping right after a stop removed the key is
also a no-op. -/
theorem stopMissingKeyNoOp (d : Downloads) (key : ChannelKey)
    (h : containsKey d key = false) :
    stopDownload d key = .ok d ∧
    stopDownload (eraseKey d key) key = .ok (eraseKey d key) :=
  ⟨stopDownload_absent d key (lookupKey_none d key h),
   stopDownload_absent _ key (lookupKey_eraseKey_self d key)⟩

theorem stopMissingKeyNoOp_witness :
    containsKey [("twitch:other", (⟨5, TermOutcome.ok⟩ : Handle))] "twitch:foo" = false ∧
    (stopDownload [("twitch:other", (⟨5, TermOutcome.ok⟩ : Handle))] "twitch:foo"
        = .ok [("twitch:other", ⟨5, TermOutcome.ok⟩)] ∧
     stopDownload (eraseKey [("twitch:other", (⟨5, TermOutcome.ok⟩ : Handle))] "twitch:foo")
        "twitch:foo"
        = .ok (eraseKey [("twitch:other", ⟨5, TermOutcome.ok⟩)] "twitch:foo")) :=
  ⟨by decide, stopMissingKeyNoOp [("twitch:other", ⟨5, TermOutcome.ok⟩)] "twitch:foo" (by decide)⟩

/-- C1 counterexample: the claim says a failed probe leaves a Recording
channel Recording with stop not invoked. In the code a raised API call
is caught inside `is_stream_live` and reported as the pair false and
None, so the tick takes the stream-ended branch: with twitch:foo in the
map and the user lookup raising, `_stop_download` is called once and
the entry is removed. -/
theorem probeFailureStopsRecording_cex :
    twitchProbeFails ⟨.error "network down", .ok none⟩ = true ∧
    channelTick [("twitch:foo", (⟨7, TermOutcome.ok⟩ : Handle))] "twitch:foo"
        (twitch_is_stream_live ⟨.error "network down", .ok none⟩)
        (.ok ⟨8, TermOutcome.ok⟩)
      = ([], ⟨0, 1⟩) :=
  ⟨rfl, by decide⟩

/-- C1 (amended): a probe failure is returned by `is_stream_live` as a
not-live reading, so it is treated as evidence of offline: a channel
whose key is absent stays absent with start not invoked, but a channel
whose key is present has `_stop_download` invoked and (when terminate
raises nothing outside the caught pair) its entry removed. -/
theorem probeFailureTreatedAsOffline (w : TwitchWorld) (d : Downloads) (key : ChannelKey)
    (h : Handle) (spawn : Except SpawnError Handle)
    (hw : twitchProbeFails w = true) :
    (containsKey d key = false →
      channelTick d key (twitch_is_stream_live w) spawn = (d, ⟨0, 0⟩)) ∧
    (lookupKey d key = some h → h.terminateOutcome ≠ TermOutcome.otherError →
      channelTick d key (twitch_is_stream_live w) spawn = (eraseKey d key, ⟨0, 1⟩)) := by
  rw [twitch_fail_not_live w hw]
  exact ⟨fun hc => channelTick_noop d key none spawn false hc,
         fun hl ho => channelTick_stop d key none spawn h hl ho⟩

theorem probeFailureTreatedAsOffline_witness :
    twitchProbeFails ⟨.error "network down", .ok none⟩ = true ∧
    lookupKey [("twitch:foo", (⟨7, TermOutcome.ok⟩ : Handle))] "twitch:foo"
      = some (⟨7, TermOutcome.ok⟩ : Handle) ∧
    channelTick [("twitch:foo", (⟨7, TermOutcome.ok⟩ : Handle))] "twitch:foo"
        (twitch_is_stream_live ⟨.error "network down", .ok none⟩) (.ok ⟨8, TermOutcome.ok⟩)
      = (eraseKey [("twitch:foo", ⟨7, TermOutcome.ok⟩)] "twitch:foo", ⟨0, 1⟩) :=
  ⟨rfl, by decide,
   (probeFailureTreatedAsOffline ⟨.error "network down", .ok none⟩ _ "twitch:foo"
      ⟨7, TermOutcome.ok⟩ (.ok ⟨8, TermOutcome.ok⟩) rfl).2 (by decide) (by decide)⟩

/-- C6 counterexample: the claim says a probe failure comes back as a
ProbeError value distinguishable from a successful not-live result. The
code returns the same pair false and None in both situations: a raising
user lookup and a successful query finding no live stream produce equal
results. -/
theorem probeErrorIndistinguishable_cex :
    twitch_is_stream_live ⟨.error "network down", .ok none⟩
      = twitch_is_stream_live ⟨.ok (some ⟨"123"⟩), .ok none⟩ ∧
    twitch_is_stream_live ⟨.error "network down", .ok none⟩ = (false, none) :=
  ⟨rfl, rfl⟩

/-- C6 (amended): on both platforms any probe failure is captured
rather than propagated, but it is returned as the pair false and None,
the same value a successful not-live probe returns; no error value with
a distinguishing reason is produced. -/
theorem probeFailureReturnsNotLive (w : TwitchWorld) (w2 : KickWorld) (channel : String)
    (hw : twitchProbeFails w = true) (hk : kickProbeFails w2 = true) :
    twitch_is_stream_live w = (false, none) ∧
    kick_is_stream_live w2 channel = (false, none) :=
  ⟨twitch_fail_not_live w hw, kick_fail_not_live w2 channel hk⟩

theorem probeFailureReturnsNotLive_witness :
    twitchProbeFails ⟨.error "timeout", .ok none⟩ = true ∧
    kickProbeFails ⟨.error "cloudflare"⟩ = true ∧
    (twitch_is_stream_live ⟨.error "timeout", .ok none⟩ = (false, none) ∧
     kick_is_stream_live ⟨.error "cloudflare"⟩ "bar" = (false, none)) :=
  ⟨rfl, rfl,
   probeFailureReturnsNotLive ⟨.error "timeout", .ok none⟩ ⟨.error "cloudflare"⟩ "bar" rfl rfl⟩

/-- C5: the filename built by `_start_download` equals the spec's
format, mapping a falsy (empty) title to an unavailable one; and on the
spec's test vector, a 210-character title containing both separators,
the sanitized title has exactly 200 characters, contains neither
separator, and the produced name ends in the mp4 extension. -/
theorem filenameMatchesSpec :
    (∀ ts sn ch t, downloadFilename ts sn ch t
        = specFilename ts sn ch (if t == "" then none else some t)) ∧
    exampleTitle210.length = 210 ∧
    (safeTitle exampleTitle210).length = 200 ∧
    '/' ∉ (safeTitle exampleTitle210).data ∧
    '\\' ∉ (safeTitle exampleTitle210).data ∧
    (∃ p, downloadFilename "2024-03-01 14:05" "ttv" "foo" exampleTitle210 = p ++ ".mp4") := by
  refine ⟨fun ts sn ch t => ?_, by decide, by decide, by decide, by decide,
          ⟨"2024-03-01 14:05 ttv foo " ++ safeTitle exampleTitle210, ?_⟩⟩
  · by_cases h : (t == "") = true <;>
      simp [downloadFilename, specFilename, safeTitle, specSanitizedTitle, sanitizeTitle, h]
  · simp [downloadFilename, String.append_assoc]

/-- C7 counterexample: the claim says construction fails whenever the
configuration yields zero monitored channels. Setting KICK_CHANNELS to
a single comma makes the raw split list non-empty, so the Kick platform
is registered, while stripping leaves an empty channel list; validation
sees a non-empty platforms dict and accepts, so construction succeeds
monitoring zero channels. -/
theorem zeroChannelsConstructionSucceeds_cex :
    constructArchiver ⟨none, none, none, none, some ","⟩ = .ok ⟨none, some []⟩ ∧
    monitoredChannelCount (initializePlatforms ⟨none, none, none, none, some ","⟩) = 0 :=
  ⟨rfl, rfl⟩

/-- C7 (amended): construction fails when no platform is configured
(the platforms dict is empty), but a configured platform whose channel
list strips to empty passes validation, so zero monitored channels is
fatal only via the no-platform route. -/
theorem noPlatformsConstructionFails (env : Env)
    (ht : (initializePlatforms env).twitch = none)
    (hk : (initializePlatforms env).kick = none) :
    constructArchiver env = .error ConfigError.noPlatforms := by
  unfold constructArchiver validateConfig
  simp [ht, hk]

theorem noPlatformsConstructionFails_witness :
    (initializePlatforms ⟨none, none, none, none, none⟩).twitch = none ∧
    (initializePlatforms ⟨none, none, none, none, none⟩).kick = none ∧
    constructArchiver ⟨none, none, none, none, none⟩ = .error ConfigError.noPlatforms :=
  ⟨rfl, rfl, noPlatformsConstructionFails ⟨none, none, none, none, none⟩ rfl rfl⟩

/-- C8: across any finite schedule of tick outcomes the loop performs
one sleep per iteration and always continues (the body has no exit):
a caught error sleeps the fixed backoff of 5, a successful tick sleeps
the configured interval, and the interval defaults to 30 when the
environment variable is unset. -/
theorem loopNeverTerminates :
    (∀ (interval : Nat) (ticks : List (Except String Unit)),
      loopSleeps interval ticks
        = ticks.map (fun t => match t with | .ok _ => interval | .error _ => errorBackoff)) ∧
    errorBackoff = 5 ∧ checkIntervalEnv none = some 30 := by
  refine ⟨fun interval ticks => ?_, rfl, by decide⟩
  induction ticks with
  | nil => rfl
  | cons t rest ih => cases t <;> simp [loopSleeps, runLoopBody, ih]
